import Mathlib

/-!
Verification of `src/api/tts.py`: a single HTTP handler that accepts a JSON
body with a `text` field, synthesizes speech through the external `edge_tts`
streaming client, and returns the buffered audio bytes.

Shallow embedding conventions:
* Bytes are `List Nat`.
* A streamed TTS chunk is a record with a `type` string and a `data` payload,
  mirroring the dictionaries yielded by `communicate.stream()`.
* External, fallible operations (`int()`, `bytes.decode`, `json.loads`, the
  edge_tts engine) are fields of a `World` record; a Python exception is an
  `Except.error` carrying the stringified message.
* The handler output is a trace of response events mirroring the calls to
  `send_response`, `send_header`, `end_headers` and `wfile.write`, paired
  with the list of engine invocations (text value, voice string) it made.
* Step 5 of `do_POST` (sending the success headers and the audio body) is
  itself I/O that can raise; `World.step5_fail` says which of those four
  operations raises, if any, and with what message.
-/

/-- One streamed chunk from the TTS engine: a tagged record with a `type`
string and payload bytes, mirroring the dict yielded by
`communicate.stream()` in `src/api/tts.py`. -/
structure Chunk where
  type : String
  data : List Nat
  deriving DecidableEq, Repr

/-- The hardcoded voice of `src/api/tts.py` line 7: `VOICE = "en-GB-RyanNeural"`. -/
def VOICE : String := "en-GB-RyanNeural"

/-- The accumulating loop of `generate_audio`: for each chunk, if its
`type` equals `"audio"`, append its `data` to the buffer, else skip it.
Embeds the `async for` loop of `src/api/tts.py` lines 14-16. -/
def writeChunks (buf : List Nat) : List Chunk → List Nat
  | [] => buf
  | c :: rest => writeChunks (if c.type = "audio" then buf ++ c.data else buf) rest

/-- The byte buffer `generate_audio` returns for a finite chunk stream:
start from an empty `BytesIO` buffer and run the chunk loop
(`src/api/tts.py` lines 9-18). -/
def generate_audio (stream : List Chunk) : List Nat := writeChunks [] stream

/-- A Python value as produced by `json.loads`, restricted to the JSON
universe (plus `bool`/`None`), with its truthiness. -/
inductive PyValue where
  | none : PyValue
  | bool : Bool → PyValue
  | int : Int → PyValue
  | str : String → PyValue
  | list : List PyValue → PyValue
  | dict : List (String × PyValue) → PyValue
  deriving Repr

/-- Python truthiness (`if not text`): `None`, `False`, `0`, `""`, `[]`
and `\x7b\x7d` are falsy, everything else is truthy. -/
def PyValue.truthy : PyValue → Bool
  | .none => false
  | .bool b => b
  | .int n => n != 0
  | .str s => s != ""
  | .list xs => !xs.isEmpty
  | .dict xs => !xs.isEmpty

/-- Python `data.get(key, dflt)`: succeeds on a dict, returning the value
bound to `key` or the default; raises `AttributeError` on every other
value (embedding `data.get('text', '')` in `src/api/tts.py` line 33). -/
def dictGet (v : PyValue) (key : String) (dflt : PyValue) : Except String PyValue :=
  match v with
  | .dict xs =>
    match xs.lookup key with
    | some x => Except.ok x
    | Option.none => Except.ok dflt
  | _ => Except.error "AttributeError: object has no attribute get"

/-- The external, fallible operations `do_POST` depends on. Each Python
exception is modelled as `Except.error` with the stringified message.
`step5_fail` selects which of the four success-response operations
(Content-Type header, Content-Length header, `end_headers`, audio write)
raises, if any. -/
structure World where
  int_of_string : String → Except String Int
  utf8_decode : List Nat → Except String String
  json_loads : String → Except String PyValue
  engine : PyValue → String → Except String (List Chunk)
  step5_fail : Option (Fin 4 × String)

/-- An incoming POST request: the optional `Content-Length` header value
and the raw bytes available on `rfile`. -/
structure Request where
  contentLengthHeader : Option String
  bodyBytes : List Nat

/-- Steps 1 of `do_POST` (`src/api/tts.py` lines 28-29): parse the
`Content-Length` header (defaulting to the integer 0 when absent), read
that many bytes from the request stream, and decode them as UTF-8. -/
def readBody (w : World) (req : Request) : Except String String :=
  match (match req.contentLengthHeader with
         | some s => w.int_of_string s
         | Option.none => Except.ok (0 : Int)) with
  | Except.error e => Except.error e
  | Except.ok cl =>
    let raw := if cl < 0 then req.bodyBytes else req.bodyBytes.take cl.toNat
    w.utf8_decode raw

/-- Outcome of the try-block up to the synthesis call: either the early
`No text provided` return, or a finished audio buffer. -/
inductive StepOutcome where
  | noText : StepOutcome
  | audio : List Nat → StepOutcome
  deriving DecidableEq, Repr

/-- Steps 1-4 of the `do_POST` try-block (`src/api/tts.py` lines 28-41):
read and decode the body, `json.loads` it, extract `text` with default
`""`, return early if falsy, otherwise run `generate_audio(text)`.
Also records the engine invocations (text value, voice) made. -/
def steps (w : World) (req : Request) :
    Except String StepOutcome × List (PyValue × String) :=
  match readBody w req with
  | Except.error e => (Except.error e, [])
  | Except.ok body =>
    match w.json_loads body with
    | Except.error e => (Except.error e, [])
    | Except.ok data =>
      match dictGet data "text" (PyValue.str "") with
      | Except.error e => (Except.error e, [])
      | Except.ok text =>
        if text.truthy then
          match w.engine text VOICE with
          | Except.error e => (Except.error e, [(text, VOICE)])
          | Except.ok stream =>
            (Except.ok (StepOutcome.audio (generate_audio stream)), [(text, VOICE)])
        else (Except.ok StepOutcome.noText, [])

/-- Body of a write event: raw bytes, or the UTF-8 encoding of a string. -/
inductive Payload where
  | bytes : List Nat → Payload
  | str : String → Payload
  deriving DecidableEq, Repr

/-- One response-side effect of the handler: `send_response`,
`send_header`, `end_headers` or `wfile.write`. -/
inductive Event where
  | status : Nat → Event
  | header : String → String → Event
  | endHeaders : Event
  | write : Payload → Event
  deriving DecidableEq, Repr

/-- Minimal JSON string escaping as performed by `json.dumps` on the
message strings that occur here: backslash and double quote. -/
def jsonEscapeChar (c : Char) : String :=
  if c = '\\' then "\\\\"
  else if c = '\"' then "\\\""
  else String.singleton c

/-- Escape a string for inclusion in a JSON string literal. -/
def jsonEscape (s : String) : String :=
  String.join (s.toList.map jsonEscapeChar)

/-- `json.dumps(\x7b"error": str(e)\x7d)` from `src/api/tts.py` line 52. -/
def json_dumps_error (msg : String) : String :=
  "\x7b\"error\": \"" ++ jsonEscape msg ++ "\"\x7d"

/-- The exact body written on the empty-text path,
`src/api/tts.py` line 37. -/
def noTextBody : String := "\x7b\"error\": \"No text provided\"\x7d"

/-- Events of the generic exception path (`src/api/tts.py` lines 49-53):
JSON content type, end of headers, then the dumped error object. -/
def errTail (e : String) : List Event :=
  [Event.header "Content-Type" "application/json", Event.endHeaders,
   Event.write (Payload.str (json_dumps_error e))]

/-- Events of the empty-text early return (`src/api/tts.py` lines 35-38). -/
def noTextTail : List Event :=
  [Event.header "Content-Type" "application/json", Event.endHeaders,
   Event.write (Payload.str noTextBody)]

/-- Events of the success response (`src/api/tts.py` lines 44-47): audio
content type, exact byte length, end of headers, the audio buffer. -/
def successTail (audio : List Nat) : List Event :=
  [Event.header "Content-Type" "audio/mpeg",
   Event.header "Content-Length" (toString audio.length),
   Event.endHeaders,
   Event.write (Payload.bytes audio)]

/-- The two events every `do_POST` path emits before the try-block
(`src/api/tts.py` lines 23-24): status 200 and the CORS origin header. -/
def corsPrefix : List Event :=
  [Event.status 200, Event.header "Access-Control-Allow-Origin" "*"]

/-- The tail of the `do_POST` event trace after the CORS prefix
(`src/api/tts.py` lines 26-53): on an exception during steps 1-4 the JSON
error tail, on empty text the fixed error body, on success the audio
response — where any of its four operations may itself raise, in which
case the events already emitted stay and the except-block appends the
JSON error tail after them. -/
def postTail (w : World) (r : Except String StepOutcome) : List Event :=
  match r with
  | Except.error e => errTail e
  | Except.ok StepOutcome.noText => noTextTail
  | Except.ok (StepOutcome.audio bs) =>
    match w.step5_fail with
    | Option.none => successTail bs
    | some (n, e) => (successTail bs).take n.val ++ errTail e

/-- See `postTail` for the try-block tail; `do_POST` glues the CORS
prefix, the tail chosen by the outcome of steps 1-4, and the recorded
engine invocations. -/
def do_POST (w : World) (req : Request) : List Event × List (PyValue × String) :=
  (corsPrefix ++ postTail w (steps w req).1, (steps w req).2)

/-- The `do_OPTIONS` handler (`src/api/tts.py` lines 55-60): status 200,
the three CORS headers, end of headers, no body. -/
def do_OPTIONS : List Event :=
  [Event.status 200,
   Event.header "Access-Control-Allow-Origin" "*",
   Event.header "Access-Control-Allow-Methods" "POST, OPTIONS",
   Event.header "Access-Control-Allow-Headers" "Content-Type",
   Event.endHeaders]

/-! ## Concrete worlds and requests used to exercise the theorems -/

/-- A sample engine stream: two audio chunks around a word-boundary
metadata chunk. -/
def sampleStream : List Chunk :=
  [⟨"audio", [1, 2]⟩, ⟨"WordBoundary", [9]⟩, ⟨"audio", [3]⟩]

/-- A request with no `Content-Length` header and no body bytes. -/
def req0 : Request where
  contentLengthHeader := Option.none
  bodyBytes := []

/-- A world on which everything succeeds: the body parses to a JSON
object with text `"hi"` and the engine yields `sampleStream`. -/
def wOk : World where
  int_of_string := fun _ => Except.error "invalid literal for int"
  utf8_decode := fun _ => Except.ok "body"
  json_loads := fun _ => Except.ok (PyValue.dict [("text", PyValue.str "hi")])
  engine := fun _ _ => Except.ok sampleStream
  step5_fail := Option.none

/-- A world whose engine completes without exception but yields an empty
chunk stream. -/
def wEmptyStream : World where
  int_of_string := fun _ => Except.error "invalid literal for int"
  utf8_decode := fun _ => Except.ok ""
  json_loads := fun _ => Except.ok (PyValue.dict [("text", PyValue.str "hi")])
  engine := fun _ _ => Except.ok []
  step5_fail := Option.none

/-- A world whose parsed JSON object has no `text` key. -/
def wNoTextKey : World where
  int_of_string := fun _ => Except.error "invalid literal for int"
  utf8_decode := fun _ => Except.ok "\x7b\x7d"
  json_loads := fun _ => Except.ok (PyValue.dict [])
  engine := fun _ _ => Except.ok sampleStream
  step5_fail := Option.none

/-- A world whose `json.loads` always raises, as on a malformed body. -/
def wMalformed : World where
  int_of_string := fun _ => Except.error "invalid literal for int"
  utf8_decode := fun _ => Except.ok "not json"
  json_loads := fun _ => Except.error "Expecting value: line 1 column 1 (char 0)"
  engine := fun _ _ => Except.ok sampleStream
  step5_fail := Option.none

/-- A world faithful to Python on the empty input: decoding zero bytes
yields the empty string and `json.loads` of the empty string raises. -/
def wEmptyBody : World where
  int_of_string := fun _ => Except.error "invalid literal for int"
  utf8_decode := fun bs => if bs.isEmpty then Except.ok "" else Except.error "decode"
  json_loads := fun s =>
    if s.isEmpty then Except.error "Expecting value: line 1 column 1 (char 0)"
    else Except.ok (PyValue.dict [])
  engine := fun _ _ => Except.ok sampleStream
  step5_fail := Option.none

/-- A world whose parsed JSON object maps `text` to the falsy integer 0. -/
def wFalsyText : World where
  int_of_string := fun _ => Except.error "invalid literal for int"
  utf8_decode := fun _ => Except.ok "body"
  json_loads := fun _ => Except.ok (PyValue.dict [("text", PyValue.int 0)])
  engine := fun _ _ => Except.ok sampleStream
  step5_fail := Option.none

/-- A world on which synthesis succeeds but the audio body write (the
fourth operation of step 5) raises. -/
def wWriteFails : World where
  int_of_string := fun _ => Except.error "invalid literal for int"
  utf8_decode := fun _ => Except.ok "body"
  json_loads := fun _ => Except.ok (PyValue.dict [("text", PyValue.str "hi")])
  engine := fun _ _ => Except.ok sampleStream
  step5_fail := some (3, "Broken pipe")

/-! ## Helper lemmas (shared) -/

/-- The chunk loop with accumulator `buf` produces `buf` followed by the
run from the empty buffer. -/
theorem writeChunks_acc (s : List Chunk) :
    ∀ buf : List Nat, writeChunks buf s = buf ++ writeChunks [] s := by
  induction s with
  | nil => intro buf; simp [writeChunks]
  | cons c rest ih =>
    intro buf
    simp only [writeChunks]
    rw [ih (if c.type = "audio" then buf ++ c.data else buf),
        ih (if c.type = "audio" then [] ++ c.data else [])]
    by_cases h : c.type = "audio" <;> simp [h]

/-- `generate_audio` is the concatenation, in arrival order, of the data
of the audio-typed chunks. -/
theorem generate_audio_join (s : List Chunk) :
    generate_audio s
      = ((s.filter fun c => c.type == "audio").map Chunk.data).flatten := by
  induction s with
  | nil => rfl
  | cons c rest ih =>
    simp only [generate_audio, writeChunks] at ih ⊢
    rw [writeChunks_acc]
    by_cases h : c.type = "audio" <;> simp [h, ih]

/-- The buffer is empty exactly when every audio-typed chunk of the
stream carries empty data. -/
theorem generate_audio_eq_nil_iff (s : List Chunk) :
    generate_audio s = [] ↔ ∀ c ∈ s, c.type = "audio" → c.data = [] := by
  rw [generate_audio_join, List.flatten_eq_nil_iff]
  constructor
  · intro h c hc htype
    exact h c.data
      (List.mem_map_of_mem Chunk.data (List.mem_filter.mpr ⟨hc, by simp [htype]⟩))
  · intro h x hx
    rcases List.mem_map.mp hx with ⟨c, hc, rfl⟩
    rcases List.mem_filter.mp hc with ⟨hcs, htype⟩
    exact h c hcs (by simpa using htype)

/-- `steps` on the full success path. -/
theorem steps_success (w : World) (req : Request) (body : String)
    (d : List (String × PyValue)) (v : PyValue) (stream : List Chunk)
    (hb : readBody w req = Except.ok body)
    (hj : w.json_loads body = Except.ok (PyValue.dict d))
    (hl : d.lookup "text" = some v)
    (hv : v.truthy = true)
    (he : w.engine v VOICE = Except.ok stream) :
    steps w req
      = (Except.ok (StepOutcome.audio (generate_audio stream)), [(v, VOICE)]) := by
  simp [steps, hb, hj, dictGet, hl, hv, he]

/-- No status event occurs in the generic error tail. -/
theorem status_not_mem_errTail (e : String) (n : Nat) :
    Event.status n ∉ errTail e := by
  simp [errTail]

/-- No status event occurs in the empty-text tail. -/
theorem status_not_mem_noTextTail (n : Nat) : Event.status n ∉ noTextTail := by
  simp [noTextTail]

/-- No status event occurs in the success tail. -/
theorem status_not_mem_successTail (bs : List Nat) (n : Nat) :
    Event.status n ∉ successTail bs := by
  simp [successTail]

/-- No status event occurs after the CORS prefix, on any path. -/
theorem status_not_mem_postTail (w : World) (r : Except String StepOutcome)
    (n : Nat) : Event.status n ∉ postTail w r := by
  cases r with
  | error e => exact status_not_mem_errTail e n
  | ok o =>
    cases o with
    | noText => exact status_not_mem_noTextTail n
    | audio bs =>
      simp only [postTail]
      cases h5 : w.step5_fail with
      | none => exact status_not_mem_successTail bs n
      | some p =>
        obtain ⟨k, e⟩ := p
        intro hmem
        rcases List.mem_append.mp hmem with h | h
        · exact status_not_mem_successTail bs n (List.take_subset _ _ h)
        · exact status_not_mem_errTail e n h

/-- The engine-invocation list of `steps` is empty or a single call at
voice `VOICE`. -/
theorem calls_shape (w : World) (req : Request) :
    (steps w req).2 = [] ∨ ∃ t, (steps w req).2 = [(t, VOICE)] := by
  rcases hrb : readBody w req with e | body
  · left; simp [steps, hrb]
  · rcases hj : w.json_loads body with e | data
    · left; simp [steps, hrb, hj]
    · rcases hg : dictGet data "text" (PyValue.str "") with e | text
      · left; simp [steps, hrb, hj, hg]
      · by_cases ht : text.truthy = true
        · rcases he : w.engine text VOICE with e | stream
          · right; exact ⟨text, by simp [steps, hrb, hj, hg, ht, he]⟩
          · right; exact ⟨text, by simp [steps, hrb, hj, hg, ht, he]⟩
        · left; simp [steps, hrb, hj, hg, ht]

/-! ## Claim theorems -/

/-- C1: for every finite chunk stream, the byte buffer returned by
`generate_audio` equals the concatenation, in arrival order, of the
`data` of exactly those chunks whose `type` equals `"audio"`; chunks of
every other type contribute nothing to the buffer. -/
theorem C1_generate_audio_concat (s : List Chunk) :
    generate_audio s
      = ((s.filter fun c => c.type == "audio").map Chunk.data).flatten :=
  generate_audio_join s

/-- C2 (amended): for every request whose body is a valid JSON object
with a non-empty string `text` field and whose synthesis call completes
without exception (and the response write itself does not raise), the
response has header `Content-Type: audio/mpeg`, a `Content-Length`
header equal to the exact byte length of the returned audio buffer, and
the audio buffer itself as body; the body is empty exactly when every
audio-typed chunk of the engine stream has empty data (so it need not be
non-empty). -/
theorem C2_success_response (w : World) (req : Request) (body : String)
    (d : List (String × PyValue)) (t : String) (stream : List Chunk)
    (hb : readBody w req = Except.ok body)
    (hj : w.json_loads body = Except.ok (PyValue.dict d))
    (hl : d.lookup "text" = some (PyValue.str t))
    (ht : t ≠ "")
    (he : w.engine (PyValue.str t) VOICE = Except.ok stream)
    (h5 : w.step5_fail = Option.none) :
    (do_POST w req).1 = corsPrefix ++ successTail (generate_audio stream) ∧
    Event.header "Content-Type" "audio/mpeg" ∈ (do_POST w req).1 ∧
    Event.header "Content-Length" (toString (generate_audio stream).length)
      ∈ (do_POST w req).1 ∧
    Event.write (Payload.bytes (generate_audio stream)) ∈ (do_POST w req).1 ∧
    (generate_audio stream = [] ↔ ∀ c ∈ stream, c.type = "audio" → c.data = []) := by
  have hv : (PyValue.str t).truthy = true := by simp [PyValue.truthy, ht]
  have hs := steps_success w req body d (PyValue.str t) stream hb hj hl hv he
  have htr : (do_POST w req).1 = corsPrefix ++ successTail (generate_audio stream) := by
    simp [do_POST, hs, postTail, h5]
  refine ⟨htr, ?_, ?_, ?_, generate_audio_eq_nil_iff stream⟩ <;>
    rw [htr] <;> simp [corsPrefix, successTail]

/-- C2 counterexample: a request whose body is a valid JSON object with
the non-empty text `"hi"` and whose synthesis call completes without
exception, yet the response body is the empty byte buffer (the engine
yielded no chunks), refuting the claimed non-emptiness. -/
theorem C2_counterexample :
    wEmptyStream.json_loads ""
        = Except.ok (PyValue.dict [("text", PyValue.str "hi")]) ∧
    wEmptyStream.engine (PyValue.str "hi") VOICE = Except.ok [] ∧
    (do_POST wEmptyStream req0).1
      = corsPrefix ++ [Event.header "Content-Type" "audio/mpeg",
          Event.header "Content-Length" "0", Event.endHeaders,
          Event.write (Payload.bytes [])] := by
  refine ⟨rfl, rfl, ?_⟩
  rfl

/-- C2 witness: the amended success theorem applied to the concrete
world `wOk` and request `req0`. -/
theorem C2_success_response_witness :
    readBody wOk req0 = Except.ok "body" ∧
    (do_POST wOk req0).1 = corsPrefix ++ successTail (generate_audio sampleStream) :=
  ⟨rfl,
   (C2_success_response wOk req0 "body" [("text", PyValue.str "hi")] "hi"
      sampleStream rfl rfl rfl (by decide) rfl rfl).1⟩

/-- C3: for every request whose body is a valid JSON object in which the
`text` key is absent or maps to the empty string, the POST handler
responds with `Content-Type: application/json` and exactly the body
`noTextBody` (the literal No-text-provided JSON object), and the
synthesis engine is never invoked. -/
theorem C3_no_text_short_circuit (w : World) (req : Request) (body : String)
    (d : List (String × PyValue))
    (hb : readBody w req = Except.ok body)
    (hj : w.json_loads body = Except.ok (PyValue.dict d))
    (hl : d.lookup "text" = Option.none ∨ d.lookup "text" = some (PyValue.str "")) :
    (do_POST w req).1 = corsPrefix ++ noTextTail ∧ (do_POST w req).2 = [] := by
  have hsteps : steps w req = (Except.ok StepOutcome.noText, []) := by
    rcases hl with hl | hl <;> simp [steps, hb, hj, dictGet, hl, PyValue.truthy]
  exact ⟨by simp [do_POST, hsteps, postTail], by simp [do_POST, hsteps]⟩

/-- C3 witness: the no-text theorem applied to the concrete world
`wNoTextKey`, whose parsed JSON object has no `text` key. -/
theorem C3_no_text_short_circuit_witness :
    readBody wNoTextKey req0 = Except.ok "\x7b\x7d" ∧
    ((do_POST wNoTextKey req0).1 = corsPrefix ++ noTextTail ∧
     (do_POST wNoTextKey req0).2 = []) :=
  ⟨rfl, C3_no_text_short_circuit wNoTextKey req0 "\x7b\x7d" [] rfl rfl (Or.inl rfl)⟩

/-- C4: for every request on which an exception is raised during steps
1-4 (body reading, UTF-8 decoding, JSON parsing, text extraction, or the
synthesis call) and only there, the top-level handler catches it and the
trace is the already-sent status 200 and CORS header followed by
`Content-Type: application/json`, end of headers, and the body
`json_dumps_error e` where `e` is the stringified exception — in
particular for a malformed JSON body, the parse error message. -/
theorem C4_exception_caught (w : World) (req : Request) (e : String)
    (h : (steps w req).1 = Except.error e) :
    (do_POST w req).1 = corsPrefix ++ errTail e := by
  simp [do_POST, postTail, h]

/-- C4 witness: the exception theorem applied to the concrete world
`wMalformed`, whose `json.loads` raises a parse error. -/
theorem C4_exception_caught_witness :
    (steps wMalformed req0).1
        = Except.error "Expecting value: line 1 column 1 (char 0)" ∧
    (do_POST wMalformed req0).1
      = corsPrefix ++ errTail "Expecting value: line 1 column 1 (char 0)" :=
  ⟨rfl, C4_exception_caught wMalformed req0 _ rfl⟩

/-- C5: every response the embedded handlers produce — `do_POST` on
success, on every error path, and `do_OPTIONS` — starts with status 200,
carries the header `Access-Control-Allow-Origin: *`, and contains no
status event other than 200. -/
theorem C5_always_200_with_cors (w : World) (req : Request) :
    (do_POST w req).1.head? = some (Event.status 200) ∧
    Event.header "Access-Control-Allow-Origin" "*" ∈ (do_POST w req).1 ∧
    (∀ n, Event.status n ∈ (do_POST w req).1 → n = 200) ∧
    do_OPTIONS.head? = some (Event.status 200) ∧
    Event.header "Access-Control-Allow-Origin" "*" ∈ do_OPTIONS ∧
    (∀ n, Event.status n ∈ do_OPTIONS → n = 200) := by
  refine ⟨rfl, ?_, ?_, rfl, ?_, ?_⟩
  · simp [do_POST, corsPrefix]
  · intro n hn
    rcases List.mem_append.mp hn with h | h
    · simpa [corsPrefix] using h
    · exact absurd h (status_not_mem_postTail w (steps w req).1 n)
  · simp [do_OPTIONS]
  · intro n hn
    simpa [do_OPTIONS] using hn

/-- C6: the OPTIONS handler emits status 200, exactly the three CORS
headers (`Access-Control-Allow-Origin: *`,
`Access-Control-Allow-Methods: POST, OPTIONS`,
`Access-Control-Allow-Headers: Content-Type`), ends the headers, and
writes no body; it is a pure constant with no error path. -/
theorem C6_options_response :
    do_OPTIONS
      = [Event.status 200,
         Event.header "Access-Control-Allow-Origin" "*",
         Event.header "Access-Control-Allow-Methods" "POST, OPTIONS",
         Event.header "Access-Control-Allow-Headers" "Content-Type",
         Event.endHeaders] ∧
    (∀ p, Event.write p ∉ do_OPTIONS) := by
  refine ⟨rfl, ?_⟩
  intro p
  simp [do_OPTIONS]

/-- C7: every engine invocation the handler makes passes the process-wide
constant `VOICE` as the voice; the voice does not depend on any part of
the request or the world. -/
theorem C7_fixed_voice (w : World) (req : Request) (c : PyValue × String)
    (h : c ∈ (do_POST w req).2) : c.2 = VOICE := by
  have hshape := calls_shape w req
  have h2 : c ∈ (steps w req).2 := h
  rcases hshape with h0 | ⟨t, ht⟩
  · rw [h0] at h2
    exact absurd h2 (List.not_mem_nil c)
  · rw [ht] at h2
    rw [List.mem_singleton.mp h2]

/-- C7 witness: the fixed-voice theorem applied to the call recorded on
the concrete world `wOk`. -/
theorem C7_fixed_voice_witness :
    (PyValue.str "hi", VOICE) ∈ (do_POST wOk req0).2 ∧
    ((PyValue.str "hi", VOICE) : PyValue × String).2 = VOICE := by
  have hmem : (PyValue.str "hi", VOICE) ∈ (do_POST wOk req0).2 := by
    have h : (do_POST wOk req0).2 = [(PyValue.str "hi", VOICE)] := rfl
    rw [h]
    exact List.mem_singleton.mpr rfl
  exact ⟨hmem, C7_fixed_voice wOk req0 _ hmem⟩

/-- C8: a POST request with no `Content-Length` header reads a length of
0 and hence an empty body; since the empty string is not valid JSON
(`json.loads` raises on it), the handler takes the generic exception
path, answering with the JSON error body and never invoking the engine. -/
theorem C8_missing_content_length (w : World) (req : Request) (e : String)
    (hcl : req.contentLengthHeader = Option.none)
    (hdec : w.utf8_decode [] = Except.ok "")
    (hjson : w.json_loads "" = Except.error e) :
    (do_POST w req).1 = corsPrefix ++ errTail e ∧ (do_POST w req).2 = [] := by
  have hrb : readBody w req = Except.ok "" := by
    simp [readBody, hcl, hdec]
  have hsteps : steps w req = (Except.error e, []) := by
    simp [steps, hrb, hjson]
  exact ⟨by simp [do_POST, hsteps, postTail], by simp [do_POST, hsteps]⟩

/-- C8 witness: the missing-Content-Length theorem applied to the
concrete world `wEmptyBody` and the headerless request `req0`. -/
theorem C8_missing_content_length_witness :
    req0.contentLengthHeader = Option.none ∧
    ((do_POST wEmptyBody req0).1
        = corsPrefix ++ errTail "Expecting value: line 1 column 1 (char 0)" ∧
     (do_POST wEmptyBody req0).2 = []) :=
  ⟨rfl, C8_missing_content_length wEmptyBody req0 _ rfl rfl rfl⟩

/-- C9: Python truthiness governs the empty-text check: `None`, `False`,
`0`, the empty list and the empty object are all falsy, and a `text` key
bound to any falsy value short-circuits to the No-text-provided response
with no engine call, while any truthy value — string or not — is passed
through unchanged to the synthesis call. -/
theorem C9_falsy_vs_truthy (w : World) (req : Request) (body : String)
    (d : List (String × PyValue)) (v : PyValue)
    (hb : readBody w req = Except.ok body)
    (hj : w.json_loads body = Except.ok (PyValue.dict d))
    (hl : d.lookup "text" = some v) :
    (PyValue.none.truthy = false ∧ (PyValue.bool false).truthy = false ∧
     (PyValue.int 0).truthy = false ∧ (PyValue.list []).truthy = false ∧
     (PyValue.dict []).truthy = false) ∧
    (v.truthy = false →
      (do_POST w req).1 = corsPrefix ++ noTextTail ∧ (do_POST w req).2 = []) ∧
    (v.truthy = true → (do_POST w req).2 = [(v, VOICE)]) := by
  refine ⟨by simp [PyValue.truthy], ?_, ?_⟩
  · intro hf
    have hsteps : steps w req = (Except.ok StepOutcome.noText, []) := by
      simp [steps, hb, hj, dictGet, hl, hf]
    exact ⟨by simp [do_POST, hsteps, postTail], by simp [do_POST, hsteps]⟩
  · intro htv
    rcases he : w.engine v VOICE with e | stream <;>
      simp [do_POST, steps, hb, hj, dictGet, hl, htv, he]

/-- C9 witness: the truthiness theorem applied to the concrete world
`wFalsyText`, whose `text` key is bound to the falsy integer 0. -/
theorem C9_falsy_vs_truthy_witness :
    (PyValue.int 0).truthy = false ∧
    ((do_POST wFalsyText req0).1 = corsPrefix ++ noTextTail ∧
     (do_POST wFalsyText req0).2 = []) :=
  ⟨rfl,
   (C9_falsy_vs_truthy wFalsyText req0 "body" [("text", PyValue.int 0)]
      (PyValue.int 0) rfl rfl rfl).2.1 rfl⟩

/-- C10: if synthesis succeeded but the k-th operation of the success
response (header sends, end of headers, or the audio body write) raises,
the same top-level except block catches it and appends the JSON error
tail after the k events already emitted: the trace keeps the committed
prefix and is not rolled back. -/
theorem C10_step5_not_atomic (w : World) (req : Request) (bs : List Nat)
    (k : Fin 4) (e : String)
    (h : (steps w req).1 = Except.ok (StepOutcome.audio bs))
    (h5 : w.step5_fail = some (k, e)) :
    (do_POST w req).1
      = (corsPrefix ++ (successTail bs).take k.val) ++ errTail e := by
  simp [do_POST, postTail, h, h5]

/-- C10 witness: the non-atomicity theorem applied to the concrete world
`wWriteFails`, on which the audio body write raises after the success
headers went out. -/
theorem C10_step5_not_atomic_witness :
    wWriteFails.step5_fail = some (3, "Broken pipe") ∧
    (do_POST wWriteFails req0).1
      = (corsPrefix ++ (successTail (generate_audio sampleStream)).take 3)
          ++ errTail "Broken pipe" :=
  ⟨rfl,
   C10_step5_not_atomic wWriteFails req0 (generate_audio sampleStream) 3
     "Broken pipe" rfl rfl⟩
